import Mathlib

/-!
Verification of the LineageVisualizer repository's SQL-to-column-lineage
engine and its storage layer, as a shallow embedding in Lean 4.

The lineage engine lives in the design document (src/unnamed/part_000) as
embedded TypeScript: `SqlLineageParser.parseQuery`,
`SqlLineageParser.extractTransformationType` and the
`ColumnLineageVisitor` class.  The storage layer is
src/server/storage.ts over the drizzle schema in src/shared/schema.ts,
and the Snowflake load-data route is src/unnamed/part_001 (lines
539-633).

The ANTLR-generated grammar (`./generated/SnowflakeSqlLexer`,
`SnowflakeSqlParser`) is not part of the repository; where its behaviour
matters it is modelled from the spec (definitions marked
"Modelled from the spec").  JavaScript machine numbers appearing here are
all small non-negative integer literals (90, 95, 100), embedded as Nat.
Postgres uuid keys (`gen_random_uuid()`) are modelled as a fresh-Nat
supply, and `defaultNow()` timestamps as a Nat clock.
-/

namespace LineageVisualizer

/-- The closed `TransformationType` enum of the design document
(GraphQL schema and parser interfaces). -/
inductive TransformationType where
  | DIRECT
  | CALCULATED
  | AGGREGATED
  | FILTERED
  | JOINED
  | UNION
deriving DecidableEq, Repr

/-! Embedding of the JavaScript regular expressions used by
`SqlLineageParser.extractTransformationType` (part_000 lines 660-674).
JS `\w` is the ASCII class [A-Za-z0-9_]; `\b` is a word boundary. -/

/-- JS word character: `\w` = [A-Za-z0-9_] (ASCII). -/
def isWordChar (c : Char) : Bool := c.isAlphanum || c == '_'

/-- JS word boundary `\b` between an optional previous and next character:
a boundary exists iff exactly one side is a word character (the edges of
the string count as non-word). -/
def jsBoundary : Option Char → Option Char → Bool
  | none, none => false
  | none, some b => isWordChar b
  | some a, none => isWordChar a
  | some a, some b => isWordChar a != isWordChar b

/-- Case-insensitive match of a literal (given as a non-empty char list)
against the head of the input; on success returns the last input
character consumed and the rest of the input. -/
def matchLitCI : List Char → List Char → Option (Char × List Char)
  | [], _ => none
  | [k], c :: cs => if k.toLower == c.toLower then some (c, cs) else none
  | k :: ks, c :: cs => if k.toLower == c.toLower then matchLitCI ks cs else none
  | _, [] => none

/-- Match a sequence of literal words separated by `\s+` (one or more
whitespace characters), as in the pattern `GROUP\s+BY`.  Whitespace is
consumed greedily, which is equivalent here because every following word
starts with a non-whitespace character. -/
def matchWordSeq : List (List Char) → List Char → Option (Char × List Char)
  | [], _ => none
  | [w], l => matchLitCI w l
  | w :: ws, l =>
    match matchLitCI w l with
    | none => none
    | some (_, r) =>
      match r with
      | c :: cs =>
        if c.isWhitespace then matchWordSeq ws (cs.dropWhile (fun x => x.isWhitespace))
        else none
      | [] => none

/-- Scan for a match of `\b(alt1|alt2|...)\b` starting at any position;
`prev` is the character just before the current position.  Each
alternative is a word sequence in the sense of `matchWordSeq`. -/
def scanBounded (alts : List (List (List Char))) : Option Char → List Char → Bool
  | _, [] => false
  | prev, c :: cs =>
    (jsBoundary prev (some c) &&
      alts.any (fun alt =>
        match matchWordSeq alt (c :: cs) with
        | some (lastc, rest) => jsBoundary (some lastc) rest.head?
        | none => false))
    || scanBounded alts (some c) cs

/-- JS `new RegExp("\\b(...)\\b", "i").test(s)` for an alternation of
word sequences. -/
def testRe (alts : List (List (List Char))) (s : String) : Bool :=
  scanBounded alts none s.data

/-- A single-word alternative. -/
def wordAlt (s : String) : List (List Char) := [s.data]

/-- Alternatives of the AGGREGATED test
`/\b(SUM|COUNT|AVG|MIN|MAX|GROUP\s+BY)\b/i`. -/
def aggAlts : List (List (List Char)) :=
  [wordAlt "SUM", wordAlt "COUNT", wordAlt "AVG", wordAlt "MIN", wordAlt "MAX",
   ["GROUP".data, "BY".data]]

/-- Alternatives of the CALCULATED test
`/\b(CASE|IF|COALESCE|CONCAT|\+|\-|\*|\/)\b/i`. -/
def calcAlts : List (List (List Char)) :=
  [wordAlt "CASE", wordAlt "IF", wordAlt "COALESCE", wordAlt "CONCAT",
   wordAlt "+", wordAlt "-", wordAlt "*", wordAlt "/"]

/-- Alternatives of the JOINED test `/\bJOIN\b/i`. -/
def joinAlts : List (List (List Char)) := [wordAlt "JOIN"]

/-- Alternatives of the FILTERED test `/\bWHERE\b/i`. -/
def whereAlts : List (List (List Char)) := [wordAlt "WHERE"]

/-- JS `String.prototype.trim`: drop whitespace from both ends
(expressed over the character list so that it reduces in the kernel). -/
def jsTrim (l : List Char) : List Char :=
  ((l.dropWhile (fun c => c.isWhitespace)).reverse.dropWhile
    (fun c => c.isWhitespace)).reverse

/-- JS `/^[\w.]+$/.test(s.trim())`: after trimming, the string is a
non-empty run of word characters and dots. -/
def bareIdentRe (s : String) : Bool :=
  let t := jsTrim s.data
  !t.isEmpty && t.all (fun c => isWordChar c || c == '.')

/-- JS `String.prototype.toLowerCase` (ASCII), over the character list
so that it reduces in the kernel. -/
def jsToLower (s : String) : String := String.mk (s.data.map Char.toLower)

/-- JS `String.prototype.toUpperCase` (ASCII), over the character list
so that it reduces in the kernel. -/
def jsToUpper (s : String) : String := String.mk (s.data.map Char.toUpper)

namespace SqlLineageParser

/-- Shallow embedding of `SqlLineageParser.extractTransformationType`
(part_000 lines 660-674): an if/else-if chain of regex tests over the
expression text, in source order. -/
def extractTransformationType (expression : String) : TransformationType :=
  if bareIdentRe expression then .DIRECT
  else if testRe aggAlts expression then .AGGREGATED
  else if testRe calcAlts expression then .CALCULATED
  else if testRe joinAlts expression then .JOINED
  else if testRe whereAlts expression then .FILTERED
  else .CALCULATED

end SqlLineageParser

/-! Data model of the parser result (part_000 lines 611-624):
`ParsedColumnLineage` and `ParsedQuery`.  The optional resolved `id`
fields of source/target columns are never assigned by the visitor and
are omitted. -/

/-- A table-qualified column reference as produced by the visitor. -/
structure ColumnId where
  tableName : String
  columnName : String
deriving DecidableEq, Repr

/-- The `ParsedColumnLineage` interface (part_000 lines 611-617). -/
structure ParsedColumnLineage where
  sourceColumn : ColumnId
  targetColumn : ColumnId
  transformationType : TransformationType
  expression : String
  confidence : Nat
deriving DecidableEq, Repr

/-- The `ParsedQuery` interface (part_000 lines 619-624); `queryType` is
the string union 'SELECT' | 'INSERT' | 'UPDATE' | 'CREATE_TABLE_AS_SELECT'
| 'MERGE'. -/
structure ParsedQuery where
  queryType : String
  columnLineages : List ParsedColumnLineage
  tableReferences : List String
  errors : List String
deriving DecidableEq, Repr

/-! Parse-tree contexts.  The ANTLR grammar (`SnowflakeSqlParser`) is
generated code absent from the repository; these context shapes are
modelled from the spec's grammar surface (spec sections 4.1-4.3) and from
the accessor methods the visitor calls on them
(`table_name()`, `column_name_simple()`, `function_name()`,
`expression_list()`, `select_item()`, `column_alias()`,
`column_name_list()`, `select_statement()`). -/

/-- Modelled from the spec: a `column_name` context — an optionally
table-qualified column reference. -/
structure ColumnNameCtx where
  table_name : Option String
  column_name_simple : String
deriving DecidableEq, Repr

/-- Modelled from the spec: an `expression` context, in the three shapes
the visitor distinguishes: a bare column reference, a function call
(with its argument expressions and its source text, for `getText()`),
or anything else (only its text observable). -/
inductive ExpressionCtx where
  | col (c : ColumnNameCtx)
  | func (function_name : String) (args : List ExpressionCtx) (text : String)
  | other (text : String)

/-- Modelled from the spec: a `select_item` context — an expression with
an optional column alias. -/
structure SelectItemCtx where
  expression : ExpressionCtx
  column_alias : Option String

/-- Modelled from the spec: one source in a FROM clause — a table name
with an optional alias. -/
structure TableSourceCtx where
  table : String
  tableAlias : Option String
deriving DecidableEq, Repr

/-- Modelled from the spec: a `select_statement` context. -/
structure SelectStatementCtx where
  select_list : List SelectItemCtx
  from_clause : List TableSourceCtx

/-- Modelled from the spec: an `insert_statement` context —
`INSERT INTO table (columns?) SELECT ...` (or a non-SELECT body). -/
structure InsertStatementCtx where
  table_name : String
  column_name_list : Option (List String)
  select_statement : Option SelectStatementCtx

/-- Modelled from the spec: a parsed top-level statement, dispatched by
the visitor to `visitSelect_statement` or `visitInsert_statement`. -/
inductive StatementCtx where
  | select (s : SelectStatementCtx)
  | insert (i : InsertStatementCtx)

/-- Ambient process context available to the JavaScript code: a stream of
`Math.random()` draws (modelled as naturals) and the current clock.  The
lineage parser never consults it; the load-data route uses the random
stream for canvas positions. -/
structure Env where
  randoms : Nat → Nat
  now : Nat

namespace ColumnLineageVisitor

/-- The instance fields of `ColumnLineageVisitor` (part_000 lines
682-684): the `columnLineages` accumulator, the alias map and the
current INSERT target table.  The JS `Map` is an insertion-ordered
association list. -/
structure VisitorState where
  columnLineages : List ParsedColumnLineage
  tableAliases : List (String × String)
  currentTargetTable : Option String
deriving Repr

/-- Fresh visitor instance state (`new ColumnLineageVisitor()`). -/
def initState : VisitorState :=
  { columnLineages := [], tableAliases := [], currentTargetTable := none }

/-- JS `Map.prototype.set`: overwrite an existing key in place, else
append, preserving insertion order. -/
def mapSet (m : List (String × String)) (k v : String) : List (String × String) :=
  if m.any (fun p => p.1 == k) then
    m.map (fun p => if p.1 == k then (k, v) else p)
  else m ++ [(k, v)]

/-- JS `Map.prototype.get` as an association-list lookup. -/
def mapGet (m : List (String × String)) (k : String) : Option String :=
  (m.find? (fun p => p.1 == k)).map (fun p => p.2)

/-- JS `a || b` for an optional string `a`: `b` when `a` is absent or
empty (falsy), else `a`. -/
def jsOr (a : Option String) (b : String) : String :=
  match a with
  | some s => if s == "" then b else s
  | none => b

/-- Modelled from the spec: `ColumnLineageVisitor.extractTableAliases`
is invoked on the FROM clause (part_000 line 688) but its body is not in
the repository.  Per spec section 4.2, each FROM/JOIN source is entered
into the alias map: under its explicit alias when present, else under
its bare table name. -/
def extractTableAliases (st : VisitorState) (fromClause : List TableSourceCtx) :
    VisitorState :=
  { st with
    tableAliases :=
      fromClause.foldl (fun m src => mapSet m (jsOr src.tableAlias src.table) src.table)
        st.tableAliases }

/-- `ColumnLineageVisitor.resolveTableName` (part_000 lines 803-806):
a missing (or empty, JS-falsy) qualifier resolves to "unknown"; a
present qualifier resolves through the alias map, falling back to the
qualifier itself. -/
def resolveTableName (st : VisitorState) (alias? : Option String) : String :=
  match alias? with
  | none => "unknown"
  | some a =>
    if a == "" then "unknown"
    else
      match mapGet st.tableAliases a with
      | some v => if v == "" then a else v
      | none => a

/-- `ColumnLineageVisitor.isAggregateFunction` (part_000 lines 808-810).
The call site (line 779) names it `isBracesFunction`; it is the only
such predicate defined on the class and matches the design intent
(aggregate function names classify as AGGREGATED). -/
def isAggregateFunction (funcName : String) : Bool :=
  ["SUM", "COUNT", "AVG", "MIN", "MAX", "GROUP_CONCAT"].contains
    (jsToUpper funcName)

/-- `ColumnLineageVisitor.extractColumnFromExpression` (part_000 lines
789-801): a bare column reference yields its resolved source, anything
else yields null. -/
def extractColumnFromExpression (st : VisitorState) (e : ExpressionCtx) :
    Option ColumnId :=
  match e with
  | .col c =>
    some { tableName := resolveTableName st c.table_name,
           columnName := c.column_name_simple }
  | _ => none

/-- The `args.forEach` loop of `extractColumnLineages` (part_000 lines
770-784): for each function-call argument that is a bare column
reference, push an AGGREGATED/CALCULATED edge with confidence 90. -/
def processArgs (fname aliasName exprText : String) :
    VisitorState → List ExpressionCtx → VisitorState
  | st, [] => st
  | st, arg :: rest =>
    match extractColumnFromExpression st arg with
    | some ref =>
      processArgs fname aliasName exprText
        { st with
          columnLineages := st.columnLineages ++
            [{ sourceColumn := ref,
               targetColumn := { tableName := "result", columnName := aliasName },
               transformationType :=
                 if isAggregateFunction fname then TransformationType.AGGREGATED
                 else TransformationType.CALCULATED,
               expression := exprText,
               confidence := 90 }] }
        rest
    | none => processArgs fname aliasName exprText st rest

/-- One iteration of the `selectItems.forEach` loop of
`extractColumnLineages` (part_000 lines 741-786), at position `index`:
a bare column reference pushes a DIRECT edge with confidence 100; a
function call processes its arguments; any other expression shape pushes
nothing. -/
def processSelectItem (st : VisitorState) (item : SelectItemCtx) (index : Nat) :
    VisitorState :=
  match item.expression with
  | .col c =>
    let tableName := resolveTableName st c.table_name
    let columnName := c.column_name_simple
    { st with
      columnLineages := st.columnLineages ++
        [{ sourceColumn := { tableName := tableName, columnName := columnName },
           targetColumn := { tableName := "result",
                             columnName := jsOr item.column_alias columnName },
           transformationType := TransformationType.DIRECT,
           expression := tableName ++ "." ++ columnName,
           confidence := 100 }] }
  | .func fname args text =>
    processArgs fname (jsOr item.column_alias (fname ++ "_" ++ toString index))
      text st args
  | .other _ => st

/-- `ColumnLineageVisitor.extractColumnLineages` (part_000 lines
735-787): the indexed `forEach` over the SELECT list. -/
def processSelectItems (st : VisitorState) :
    List SelectItemCtx → Nat → VisitorState
  | [], _ => st
  | item :: rest, i => processSelectItems (processSelectItem st item i) rest (i + 1)

/-- `ColumnLineageVisitor.visitSelect_statement` (part_000 lines
686-699): extract table aliases from the FROM clause, extract column
lineages from the SELECT list, and return a SELECT `ParsedQuery` whose
`columnLineages` is the instance accumulator, `tableReferences` the
alias-map values, and `errors` empty. -/
def visitSelect_statement (st : VisitorState) (ctx : SelectStatementCtx) :
    ParsedQuery × VisitorState :=
  let st1 := extractTableAliases st ctx.from_clause
  let st2 := processSelectItems st1 ctx.select_list 0
  ({ queryType := "SELECT",
     columnLineages := st2.columnLineages,
     tableReferences := st2.tableAliases.map (fun p => p.2),
     errors := [] }, st2)

/-- The `selectLineages.columnLineages.forEach` loop of
`visitInsert_statement` (part_000 lines 711-724): map the `index`-th
SELECT lineage to the `index`-th INSERT column when one exists (the JS
`forEach` iterates the snapshot of elements present when iteration
starts, so the edges it pushes are not revisited), pushing an edge that
keeps the SELECT lineage's transformation type and expression, targets
the INSERT table, and has confidence 95. -/
def mapInsertColumns (targetTable : String) (insertColumns : List String) :
    VisitorState → List ParsedColumnLineage → Nat → VisitorState
  | st, [], _ => st
  | st, lineage :: rest, index =>
    match insertColumns.get? index with
    | some colName =>
      mapInsertColumns targetTable insertColumns
        { st with
          columnLineages := st.columnLineages ++
            [{ sourceColumn := lineage.sourceColumn,
               targetColumn := { tableName := targetTable, columnName := colName },
               transformationType := lineage.transformationType,
               expression := lineage.expression,
               confidence := 95 }] }
        rest (index + 1)
    | none => mapInsertColumns targetTable insertColumns st rest (index + 1)

/-- `ColumnLineageVisitor.visitInsert_statement` (part_000 lines
701-733): record the target table, visit the nested SELECT when present
(accumulating its edges in the shared instance state), then positionally
map the SELECT lineages onto the INSERT column list.  The returned
`columnLineages` is the instance accumulator, so it contains both the
SELECT-stage edges and the INSERT-mapped edges. -/
def visitInsert_statement (st : VisitorState) (ctx : InsertStatementCtx) :
    ParsedQuery × VisitorState :=
  let st1 := { st with currentTargetTable := some ctx.table_name }
  match ctx.select_statement with
  | some sel =>
    let res := visitSelect_statement st1 sel
    let insertColumns := ctx.column_name_list.getD []
    let st3 := mapInsertColumns ctx.table_name insertColumns res.2
      res.1.columnLineages 0
    ({ queryType := "INSERT",
       columnLineages := st3.columnLineages,
       tableReferences := [ctx.table_name],
       errors := [] }, st3)
  | none =>
    ({ queryType := "INSERT",
       columnLineages := st1.columnLineages,
       tableReferences := [ctx.table_name],
       errors := [] }, st1)

/-- The visitor dispatch `visitor.visit(tree)` on a parsed statement. -/
def visit (st : VisitorState) : StatementCtx → ParsedQuery × VisitorState
  | .select s => visitSelect_statement st s
  | .insert i => visitInsert_statement st i

/-- Classification of every edge the visitor can push: confidence 90
with type AGGREGATED/CALCULATED (function-argument edges), confidence 95
(INSERT-mapped edges), or confidence 100 with type DIRECT (bare-column
SELECT edges). -/
def EdgeWellFormed (e : ParsedColumnLineage) : Prop :=
  (e.confidence = 90 ∧ (e.transformationType = TransformationType.AGGREGATED ∨
      e.transformationType = TransformationType.CALCULATED)) ∨
  e.confidence = 95 ∨
  (e.confidence = 100 ∧ e.transformationType = TransformationType.DIRECT)

end ColumnLineageVisitor

namespace SqlLineageParser

/-- `SqlLineageParser.parseQuery` (part_000 lines 628-658): run the
lexer/parser/visitor pipeline inside a try block on a fresh visitor
instance; any failure inside the block (modelled by `runParser`
returning an error, since the generated grammar is not in the
repository) is caught and returned as a `ParsedQuery` with empty
`columnLineages`, empty `tableReferences` and a single
"Parse error: ..." entry in `errors`.  `env` is the ambient process
context (clock, RNG); the function never consults it. -/
def parseQuery (runParser : String → Except String StatementCtx) (env : Env)
    (sqlText : String) : ParsedQuery :=
  match runParser sqlText with
  | .ok tree =>
    let result := ColumnLineageVisitor.visit ColumnLineageVisitor.initState tree
    { queryType := result.1.queryType,
      columnLineages := result.1.columnLineages,
      tableReferences := result.1.tableReferences,
      errors := result.1.errors }
  | .error e =>
    { queryType := "SELECT",
      columnLineages := [],
      tableReferences := [],
      errors := ["Parse error: " ++ e] }

end SqlLineageParser

/-! Concrete inputs used by counterexamples and witnesses. -/

/-- A fixed ambient context. -/
def env0 : Env := { randoms := fun _ => 0, now := 0 }

/-- A second ambient context with a different RNG and clock. -/
def envA : Env := { randoms := fun n => n * 31 + 7, now := 123456 }

/-- A grammar run that rejects every input, as on malformed SQL. -/
def failParser : String → Except String StatementCtx :=
  fun _ => Except.error "mismatched input"

/-- Modelled from the spec: the parse tree the grammar yields for
`INSERT INTO t (a) SELECT x FROM s` (spec sections 4.1-4.3): an INSERT
with explicit column list `[a]` whose body is a single-item SELECT of
the unqualified column `x` from the single source table `s`. -/
def mkInsertSelect (t a x s : String) : StatementCtx :=
  StatementCtx.insert
    { table_name := t,
      column_name_list := some [a],
      select_statement := some
        { select_list :=
            [{ expression := ExpressionCtx.col
                 { table_name := none, column_name_simple := x },
               column_alias := none }],
          from_clause := [{ table := s, tableAlias := none }] } }

/-- A SELECT item that is a bare unqualified column reference. -/
def mkBareItem (n : String) : SelectItemCtx :=
  { expression := ExpressionCtx.col { table_name := none, column_name_simple := n },
    column_alias := none }

/-- The edge the visitor emits for a bare unqualified column `n`:
source table "unknown", target `result.n`, DIRECT, confidence 100. -/
def mkUnknownEdge (n : String) : ParsedColumnLineage :=
  { sourceColumn := { tableName := "unknown", columnName := n },
    targetColumn := { tableName := "result", columnName := n },
    transformationType := TransformationType.DIRECT,
    expression := "unknown" ++ "." ++ n,
    confidence := 100 }

/-- The candidate source tables of the spec's ambiguity condition
(spec section 4.2): the FROM-clause tables whose symbol-table column
list contains the unqualified name.  This definition follows the spec's
words; the visitor itself never consults a symbol table. -/
def specCandidateTables (symbols : List (String × List String))
    (fromClause : List TableSourceCtx) (colName : String) : List String :=
  (fromClause.filter (fun src =>
      (symbols.find? (fun p => p.1 == src.table)).elim false
        (fun p => p.2.contains colName))).map (fun src => src.table)

/-- Symbol table with the column `id` present in both `a` and `b`. -/
def ambiguousSymbols : List (String × List String) := [("a", ["id"]), ("b", ["id"])]

/-- The FROM clause of `SELECT id FROM a JOIN b`. -/
def ambiguousFrom : List TableSourceCtx :=
  [{ table := "a", tableAlias := none }, { table := "b", tableAlias := none }]

/-- Modelled from the spec: the parse tree for `SELECT id FROM a JOIN b`. -/
def mkAmbiguousSelect : StatementCtx :=
  StatementCtx.select
    { select_list := [mkBareItem "id"], from_clause := ambiguousFrom }

/-- Modelled from the spec: the SELECT body of
`INSERT INTO t (a) SELECT x, y FROM s` — two output columns. -/
def arityMismatchSelect : SelectStatementCtx :=
  { select_list := [mkBareItem "x", mkBareItem "y"],
    from_clause := [{ table := "s", tableAlias := none }] }

/-- Modelled from the spec: the parse tree for
`INSERT INTO t (a) SELECT x, y FROM s` — the SELECT produces two output
columns while the target column list has one. -/
def arityMismatchInsert : StatementCtx :=
  StatementCtx.insert
    { table_name := "t", column_name_list := some ["a"],
      select_statement := some arityMismatchSelect }

/-! Storage layer: the drizzle tables of src/shared/schema.ts that the
claims touch, the `DatabaseStorage` operations of src/server/storage.ts,
and the `/api/snowflake/load-data` route of src/unnamed/part_001.

Row uuids (`gen_random_uuid()` primary keys) are modelled by a fresh-Nat
supply `nextId` carried in the database state; `defaultNow()` timestamps
by a Nat clock `now`.  Only the columns the claims inspect (plus enough
to identify a row) are carried; the remaining text/jsonb columns of each
table do not affect any claim.  The `users`, `roles`, `userRoles`,
`sessions` and `dataQualityResults` tables are never touched by the
operations under verification and are not carried in the state. -/

namespace Storage

/-- A row of `column_lineage` (schema.ts lines 77-91). -/
structure ColumnLineageRec where
  id : Nat
  sourceColumnId : Nat
  targetColumnId : Nat
  transformationType : String
  transformationLogic : Option String
  confidence : Nat
  createdAt : Nat
deriving DecidableEq, Repr

/-- The caller-supplied values of an insert into `column_lineage`
(`InsertColumnLineage` of schema.ts: the row minus id/createdAt/updatedAt). -/
structure InsertColumnLineage where
  sourceColumnId : Nat
  targetColumnId : Nat
  transformationType : String
  transformationLogic : Option String
  confidence : Nat
deriving DecidableEq, Repr

/-- A row of `table_lineage` (schema.ts lines 94-108). -/
structure TableLineageRec where
  id : Nat
  sourceTableId : Nat
  targetTableId : Nat
  transformationType : String
  createdAt : Nat
deriving DecidableEq, Repr

/-- A row of `databases` (schema.ts lines 8-17). -/
structure DatabaseRec where
  id : Nat
  name : String
  dbType : String
  description : Option String
  connectionString : Option String
deriving DecidableEq, Repr

/-- A row of `schemas` (schema.ts lines 19-29). -/
structure SchemaRec where
  id : Nat
  name : String
  databaseId : Nat
  description : Option String
deriving DecidableEq, Repr

/-- A row of `tables` (schema.ts lines 31-49); `posX`/`posY` are the
components of the jsonb `position`. -/
structure TableRec where
  id : Nat
  name : String
  schemaId : Nat
  description : Option String
  tableType : String
  rowCount : Nat
  sizeBytes : Nat
  posX : Nat
  posY : Nat
deriving DecidableEq, Repr

/-- A row of `columns` (schema.ts lines 51-74). -/
structure ColumnRec where
  id : Nat
  name : String
  tableId : Nat
  dataType : String
  isNullable : Bool
  ordinalPosition : Nat
deriving DecidableEq, Repr

/-- A row of `projects` (schema.ts lines 212-222). -/
structure ProjectRec where
  id : Nat
  name : String
deriving DecidableEq, Repr

/-- A row of `data_quality_rules` (schema.ts lines 166-181). -/
structure DataQualityRuleRec where
  id : Nat
  name : String
deriving DecidableEq, Repr

/-- A row of `data_access_policies` (schema.ts lines 149-163). -/
structure DataAccessPolicyRec where
  id : Nat
  name : String
deriving DecidableEq, Repr

/-- The relational state behind `DatabaseStorage`: the nine tables that
`clearAllData` deletes, plus the uuid supply and the clock. -/
structure DB where
  databases : List DatabaseRec
  schemas : List SchemaRec
  tables : List TableRec
  columns : List ColumnRec
  columnLineage : List ColumnLineageRec
  tableLineage : List TableLineageRec
  projects : List ProjectRec
  dataQualityRules : List DataQualityRuleRec
  dataAccessPolicies : List DataAccessPolicyRec
  nextId : Nat
  now : Nat

/-- `DatabaseStorage.createColumnLineage` (storage.ts lines 588-591):
`db.insert(columnLineage).values(...).returning()`.  Postgres enforces
the unique index `unique_column_lineage` on
(source_column_id, target_column_id) declared in schema.ts line 88: an
insert that collides with a stored row on that key fails with an error
and leaves the table unchanged; otherwise the row is inserted with a
fresh id. -/
def createColumnLineage (db : DB) (ins : InsertColumnLineage) :
    Except String (DB × ColumnLineageRec) :=
  if db.columnLineage.any (fun r =>
      r.sourceColumnId == ins.sourceColumnId &&
      r.targetColumnId == ins.targetColumnId) then
    Except.error "duplicate key value violates unique constraint unique_column_lineage"
  else
    let r : ColumnLineageRec :=
      { id := db.nextId,
        sourceColumnId := ins.sourceColumnId,
        targetColumnId := ins.targetColumnId,
        transformationType := ins.transformationType,
        transformationLogic := ins.transformationLogic,
        confidence := ins.confidence,
        createdAt := db.now }
    Except.ok ({ db with columnLineage := db.columnLineage ++ [r],
                         nextId := db.nextId + 1 }, r)

/-- A caller issuing a sequence of `createColumnLineage` upserts: a
failed insert (duplicate key) leaves the store unchanged and the batch
continues. -/
def runColumnLineageInserts (db : DB) : List InsertColumnLineage → DB
  | [] => db
  | op :: rest =>
    match createColumnLineage db op with
    | Except.ok (db', _) => runColumnLineageInserts db' rest
    | Except.error _ => runColumnLineageInserts db rest

/-- The uniqueness invariant of the `unique_column_lineage` index: no
two stored rows share both source and target column ids. -/
def columnLineageKeyUnique (db : DB) : Prop :=
  (db.columnLineage.map (fun r => (r.sourceColumnId, r.targetColumnId))).Nodup

/-- Insertion into a list kept in descending `createdAt` order
(one step of `ORDER BY created_at DESC`). -/
def insertByCreatedDesc (r : TableLineageRec) :
    List TableLineageRec → List TableLineageRec
  | [] => [r]
  | x :: xs =>
    if x.createdAt ≤ r.createdAt then r :: x :: xs
    else x :: insertByCreatedDesc r xs

/-- `ORDER BY created_at DESC` as an insertion sort. -/
def orderByCreatedAtDesc : List TableLineageRec → List TableLineageRec
  | [] => []
  | x :: xs => insertByCreatedDesc x (orderByCreatedAtDesc xs)

/-- `DatabaseStorage.getTableLineageByTableId` (storage.ts lines
598-607): select rows of `table_lineage` where the source table id AND
the target table id both equal the given id, ordered by `created_at`
descending. -/
def getTableLineageByTableId (db : DB) (tableId : Nat) : List TableLineageRec :=
  orderByCreatedAtDesc (db.tableLineage.filter (fun r =>
    r.sourceTableId == tableId && r.targetTableId == tableId))

/-- `DatabaseStorage.clearAllData` (storage.ts lines 769-781): delete
every row of column_lineage, table_lineage, columns, tables, schemas,
databases, projects, data_quality_rules and data_access_policies (in
that order; the order is immaterial here since no referential action is
attached to the keys). -/
def clearAllData (db : DB) : DB :=
  { db with
    columnLineage := [], tableLineage := [], columns := [], tables := [],
    schemas := [], databases := [], projects := [], dataQualityRules := [],
    dataAccessPolicies := [] }

/-- `DatabaseStorage.createDatabase`: plain insert returning the new
row. -/
def createDatabase (db : DB) (name dbType : String)
    (description connectionString : Option String) : DB × DatabaseRec :=
  let r : DatabaseRec :=
    { id := db.nextId, name := name, dbType := dbType,
      description := description, connectionString := connectionString }
  ({ db with databases := db.databases ++ [r], nextId := db.nextId + 1 }, r)

/-- `DatabaseStorage.createSchema`: plain insert returning the new row. -/
def createSchema (db : DB) (name : String) (databaseId : Nat)
    (description : Option String) : DB × SchemaRec :=
  let r : SchemaRec :=
    { id := db.nextId, name := name, databaseId := databaseId,
      description := description }
  ({ db with schemas := db.schemas ++ [r], nextId := db.nextId + 1 }, r)

/-- The caller-supplied values of an insert into `tables`. -/
structure InsertTable where
  name : String
  schemaId : Nat
  description : Option String
  tableType : String
  rowCount : Nat
  sizeBytes : Nat
  posX : Nat
  posY : Nat

/-- `DatabaseStorage.createTable`: plain insert returning the new row. -/
def createTable (db : DB) (ins : InsertTable) : DB × TableRec :=
  let r : TableRec :=
    { id := db.nextId, name := ins.name, schemaId := ins.schemaId,
      description := ins.description, tableType := ins.tableType,
      rowCount := ins.rowCount, sizeBytes := ins.sizeBytes,
      posX := ins.posX, posY := ins.posY }
  ({ db with tables := db.tables ++ [r], nextId := db.nextId + 1 }, r)

/-- The caller-supplied values of an insert into `columns`. -/
structure InsertColumn where
  name : String
  tableId : Nat
  dataType : String
  isNullable : Bool
  ordinalPosition : Nat

/-- `DatabaseStorage.createColumn`: plain insert returning the new row. -/
def createColumn (db : DB) (ins : InsertColumn) : DB × ColumnRec :=
  let r : ColumnRec :=
    { id := db.nextId, name := ins.name, tableId := ins.tableId,
      dataType := ins.dataType, isNullable := ins.isNullable,
      ordinalPosition := ins.ordinalPosition }
  ({ db with columns := db.columns ++ [r], nextId := db.nextId + 1 }, r)

/-- A row of the Snowflake table/view metadata fetched by
`connector.getTables` / `connector.getViews`. -/
structure SnowTableRow where
  table_name : String
  table_type : String
  comment : Option String
  row_count : Option Nat
  bytes : Option Nat

/-- A row of the Snowflake column metadata fetched by
`connector.getColumns`. -/
structure SnowColumnRow where
  table_name : String
  column_name : String
  data_type : String
  is_nullable : String
  ordinal_position : Nat

/-- The Snowflake connection config posted to the route. -/
structure SnowflakeConfig where
  account : String
  database : String
  schemaName : String

/-- The JSON body answered by the load-data route. -/
structure LoadDataResponse where
  success : Bool
  tableCount : Nat
  columnCount : Nat
deriving DecidableEq, Repr

/-- The `for (const table of allTables)` loop of the load-data route
(part_001 lines 574-592): create one `tables` row per fetched
table/view; `k` counts the `Math.random()` draws already consumed (two
per table, for the canvas position `Math.random()*800+100`,
`Math.random()*600+100`). -/
def loadDataTablesLoop (env : Env) (schemaId : Nat) :
    DB → List SnowTableRow → Nat → DB × List TableRec
  | db, [], _ => (db, [])
  | db, t :: rest, k =>
    let created := createTable db
      { name := t.table_name,
        schemaId := schemaId,
        description := some ((t.comment).getD
          ("Snowflake " ++ jsToLower t.table_type ++ ": " ++ t.table_name)),
        tableType := if jsToLower t.table_type == "view" then "view" else "table",
        rowCount := (t.row_count).getD 0,
        sizeBytes := (t.bytes).getD 0,
        posX := env.randoms (2 * k) % 800 + 100,
        posY := env.randoms (2 * k + 1) % 600 + 100 }
    let restRes := loadDataTablesLoop env schemaId created.1 rest (k + 1)
    (restRes.1, created.2 :: restRes.2)

/-- The `for (const column of columns)` loop of the load-data route
(part_001 lines 594-613): create one `columns` row per fetched column
whose table name matches a created table; returns the column count. -/
def loadDataColumnsLoop (createdTables : List TableRec) :
    DB → List SnowColumnRow → DB × Nat
  | db, [] => (db, 0)
  | db, c :: rest =>
    match createdTables.find? (fun t => t.name == c.table_name) with
    | some t =>
      let created := createColumn db
        { name := c.column_name, tableId := t.id, dataType := c.data_type,
          isNullable := c.is_nullable == "YES",
          ordinalPosition := c.ordinal_position }
      let restRes := loadDataColumnsLoop createdTables created.1 rest
      (restRes.1, restRes.2 + 1)
    | none => loadDataColumnsLoop createdTables db rest

/-- The POST /api/snowflake/load-data handler (part_001 lines 539-633):
clear all stored data, fetch tables/views/columns from Snowflake
(`fetch` stands for the outcome of the `Promise.all`; a connector
failure is caught by the route's try/catch and answered with a 500),
then create the database, the schema, the tables and the columns, and
answer success. -/
def loadData (env : Env) (cfg : SnowflakeConfig)
    (fetch : Except String (List SnowTableRow × List SnowTableRow × List SnowColumnRow))
    (db : DB) : DB × LoadDataResponse :=
  let db0 := clearAllData db
  match fetch with
  | Except.error _ => (db0, { success := false, tableCount := 0, columnCount := 0 })
  | Except.ok fetched =>
    let allTables := fetched.1 ++ fetched.2.1
    let dbStep := createDatabase db0 cfg.database "snowflake"
      (some ("Snowflake database: " ++ cfg.database))
      (some (cfg.account ++ "/" ++ cfg.database))
    let schStep := createSchema dbStep.1 cfg.schemaName dbStep.2.id
      (some ("Snowflake schema: " ++ cfg.schemaName))
    let tabStep := loadDataTablesLoop env schStep.2.id schStep.1 allTables 0
    let colStep := loadDataColumnsLoop tabStep.2 tabStep.1 fetched.2.2
    (colStep.1,
     { success := true, tableCount := allTables.length, columnCount := colStep.2 })

/-- Well-formedness of the store: every stored row's id was drawn from
the uuid supply, i.e. is below `nextId`. -/
def wfDB (db : DB) : Prop :=
  (∀ r ∈ db.databases, r.id < db.nextId) ∧
  (∀ r ∈ db.schemas, r.id < db.nextId) ∧
  (∀ r ∈ db.tables, r.id < db.nextId) ∧
  (∀ r ∈ db.columns, r.id < db.nextId) ∧
  (∀ r ∈ db.columnLineage, r.id < db.nextId) ∧
  (∀ r ∈ db.tableLineage, r.id < db.nextId) ∧
  (∀ r ∈ db.projects, r.id < db.nextId) ∧
  (∀ r ∈ db.dataQualityRules, r.id < db.nextId) ∧
  (∀ r ∈ db.dataAccessPolicies, r.id < db.nextId)

/-- An empty store. -/
def emptyDB : DB :=
  { databases := [], schemas := [], tables := [], columns := [],
    columnLineage := [], tableLineage := [], projects := [],
    dataQualityRules := [], dataAccessPolicies := [], nextId := 0, now := 0 }

/-- A store holding one self-loop and one cross-table lineage row. -/
def exampleLineageDB : DB :=
  { databases := [], schemas := [], tables := [], columns := [],
    columnLineage := [],
    tableLineage :=
      [{ id := 0, sourceTableId := 5, targetTableId := 5,
         transformationType := "direct", createdAt := 10 },
       { id := 1, sourceTableId := 5, targetTableId := 7,
         transformationType := "join", createdAt := 11 }],
    projects := [], dataQualityRules := [], dataAccessPolicies := [],
    nextId := 2, now := 12 }

/-- A store holding one stale row in each of the nine collections the
load-data route clears. -/
def staleDB : DB :=
  { databases := [{ id := 0, name := "old", dbType := "postgres",
                    description := none, connectionString := none }],
    schemas := [{ id := 1, name := "olds", databaseId := 0,
                  description := none }],
    tables := [{ id := 2, name := "oldt", schemaId := 1, description := none,
                 tableType := "table", rowCount := 0, sizeBytes := 0,
                 posX := 0, posY := 0 }],
    columns := [{ id := 3, name := "oldc", tableId := 2, dataType := "text",
                  isNullable := false, ordinalPosition := 1 }],
    columnLineage := [{ id := 4, sourceColumnId := 3, targetColumnId := 3,
                        transformationType := "direct",
                        transformationLogic := none, confidence := 100,
                        createdAt := 0 }],
    tableLineage := [{ id := 5, sourceTableId := 2, targetTableId := 2,
                       transformationType := "direct", createdAt := 0 }],
    projects := [{ id := 6, name := "p" }],
    dataQualityRules := [{ id := 7, name := "q" }],
    dataAccessPolicies := [{ id := 8, name := "pol" }],
    nextId := 9, now := 100 }

/-- A concrete Snowflake connection config. -/
def loadCfg : SnowflakeConfig :=
  { account := "acct", database := "DB1", schemaName := "PUBLIC" }

/-- A successful metadata fetch: one table, no views, one column. -/
def loadFetch :
    Except String (List SnowTableRow × List SnowTableRow × List SnowColumnRow) :=
  Except.ok
    ([{ table_name := "T1", table_type := "BASE TABLE", comment := none,
        row_count := some 10, bytes := some 1000 }],
     [],
     [{ table_name := "T1", column_name := "C1", data_type := "NUMBER",
        is_nullable := "YES", ordinal_position := 1 }])

end Storage

/-! Theorems.  Each claim of the specification is settled below; helper
lemmas carry no claim by themselves. -/

/-- C3 (counterexample): the claimed tie-break order
AGGREGATED > UNION > JOINED > FILTERED > CALCULATED > DIRECT fails on the
code.  The expression "a+b JOIN c" satisfies both the CALCULATED pattern
and the JOINED condition but is classified CALCULATED, not JOINED; and
"SUM" satisfies both the AGGREGATED condition and the bare-identifier
DIRECT pattern but is classified DIRECT, not AGGREGATED. -/
theorem extractTransformationType_tiebreak_counterexample :
    testRe calcAlts "a+b JOIN c" = true ∧
    testRe joinAlts "a+b JOIN c" = true ∧
    SqlLineageParser.extractTransformationType "a+b JOIN c" =
      TransformationType.CALCULATED ∧
    TransformationType.CALCULATED ≠ TransformationType.JOINED ∧
    bareIdentRe "SUM" = true ∧
    testRe aggAlts "SUM" = true ∧
    SqlLineageParser.extractTransformationType "SUM" =
      TransformationType.DIRECT ∧
    TransformationType.DIRECT ≠ TransformationType.AGGREGATED := by
  decide

/-- C3 (amended): the classifier's actual precedence when several
conditions hold is the source order of its if/else-if chain:
DIRECT (bare identifier) > AGGREGATED > CALCULATED (pattern) > JOINED >
FILTERED, with CALCULATED as the final fallback and no UNION branch at
all.  In particular an expression satisfying both the CALCULATED pattern
and the JOINED condition is classified CALCULATED, and one satisfying
both AGGREGATED and JOINED is classified AGGREGATED unless it also
matches the bare-identifier pattern. -/
theorem extractTransformationType_precedence (e : String) :
    (bareIdentRe e = true →
      SqlLineageParser.extractTransformationType e = TransformationType.DIRECT) ∧
    (bareIdentRe e = false → testRe aggAlts e = true →
      SqlLineageParser.extractTransformationType e = TransformationType.AGGREGATED) ∧
    (bareIdentRe e = false → testRe aggAlts e = false → testRe calcAlts e = true →
      SqlLineageParser.extractTransformationType e = TransformationType.CALCULATED) ∧
    (bareIdentRe e = false → testRe aggAlts e = false → testRe calcAlts e = false →
      testRe joinAlts e = true →
      SqlLineageParser.extractTransformationType e = TransformationType.JOINED) ∧
    (bareIdentRe e = false → testRe aggAlts e = false → testRe calcAlts e = false →
      testRe joinAlts e = false → testRe whereAlts e = true →
      SqlLineageParser.extractTransformationType e = TransformationType.FILTERED) ∧
    (bareIdentRe e = false → testRe aggAlts e = false → testRe calcAlts e = false →
      testRe joinAlts e = false → testRe whereAlts e = false →
      SqlLineageParser.extractTransformationType e = TransformationType.CALCULATED) ∧
    SqlLineageParser.extractTransformationType e ≠ TransformationType.UNION := by
  unfold SqlLineageParser.extractTransformationType
  split_ifs with h1 h2 h3 h4 h5 <;> simp_all

/-- C3 (witness for the amended theorem): instantiating the precedence
theorem at "a+b JOIN c", whose CALCULATED and JOINED conditions both
hold, yields classification CALCULATED. -/
theorem extractTransformationType_precedence_witness :
    SqlLineageParser.extractTransformationType "a+b JOIN c" =
      TransformationType.CALCULATED :=
  (extractTransformationType_precedence "a+b JOIN c").2.2.1
    (by decide) (by decide) (by decide)

/-- C1: `parseQuery` never lets a failure escape.  Whenever the
parse/visit pipeline fails on the input (the grammar run returns an
error — in the source, any exception thrown inside the try block), the
returned `ParsedQuery` has an empty `columnLineages` list and a
non-empty `errors` list carrying the failure as data. -/
theorem parseQuery_failure_reported_as_data
    (rp : String → Except String StatementCtx) (env : Env) (sql e : String)
    (h : rp sql = Except.error e) :
    (SqlLineageParser.parseQuery rp env sql).columnLineages = [] ∧
    (SqlLineageParser.parseQuery rp env sql).errors ≠ [] := by
  simp [SqlLineageParser.parseQuery, h]

/-- C1 (witness): on the malformed input `SELEKT x FORM y` rejected by
the grammar, the result has no edges and a non-empty errors list. -/
theorem parseQuery_failure_reported_as_data_witness :
    (SqlLineageParser.parseQuery failParser env0 "SELEKT x FORM y").columnLineages
      = [] ∧
    (SqlLineageParser.parseQuery failParser env0 "SELEKT x FORM y").errors ≠ [] :=
  parseQuery_failure_reported_as_data failParser env0 "SELEKT x FORM y"
    "mismatched input" rfl

/-- C5: `parseQuery` is deterministic.  Two invocations with identical
SQL text (under the same grammar) return identical `ParsedQuery` values
— same edges in the same order, same confidences, same tableReferences
and errors — whatever the ambient randomness and clock are at either
call: the pipeline runs on a fresh visitor instance and never consults
the environment. -/
theorem parseQuery_deterministic
    (rp : String → Except String StatementCtx) (env1 env2 : Env)
    (sql1 sql2 : String) (h : sql1 = sql2) :
    SqlLineageParser.parseQuery rp env1 sql1 =
      SqlLineageParser.parseQuery rp env2 sql2 := by
  subst h; rfl

/-- C5 (witness): two invocations on the same text under different
RNG/clock environments agree. -/
theorem parseQuery_deterministic_witness :
    SqlLineageParser.parseQuery failParser env0 "SELECT a FROM t" =
      SqlLineageParser.parseQuery failParser envA "SELECT a FROM t" :=
  parseQuery_deterministic failParser env0 envA "SELECT a FROM t"
    "SELECT a FROM t" rfl

/-- C2 (counterexample): for `INSERT INTO t (a) SELECT x FROM s` the
result does not contain exactly one edge `s.x -> t.a` with confidence
100.  It contains two edges: the SELECT-stage edge to `result.x` with
confidence 100, and the INSERT-mapped edge to `t.a` with confidence 95;
both carry source table "unknown" (the reference `x` is unqualified),
not `s`. -/
theorem insertSelect_counterexample :
    SqlLineageParser.parseQuery
        (fun _ => Except.ok (mkInsertSelect "t" "a" "x" "s")) env0
        "INSERT INTO t (a) SELECT x FROM s" =
      { queryType := "INSERT",
        columnLineages :=
          [{ sourceColumn := { tableName := "unknown", columnName := "x" },
             targetColumn := { tableName := "result", columnName := "x" },
             transformationType := TransformationType.DIRECT,
             expression := "unknown.x",
             confidence := 100 },
           { sourceColumn := { tableName := "unknown", columnName := "x" },
             targetColumn := { tableName := "t", columnName := "a" },
             transformationType := TransformationType.DIRECT,
             expression := "unknown.x",
             confidence := 95 }],
        tableReferences := ["t"],
        errors := [] } ∧
    (SqlLineageParser.parseQuery
        (fun _ => Except.ok (mkInsertSelect "t" "a" "x" "s")) env0
        "INSERT INTO t (a) SELECT x FROM s").columnLineages.length ≠ 1 := by
  decide

/-- C2 (amended): for every statement `INSERT INTO t (a) SELECT x FROM s`
the result contains exactly two edges: the SELECT-stage DIRECT edge from
`unknown.x` to `result.x` with confidence 100, and the INSERT-mapped
DIRECT edge from `unknown.x` to `t.a` with confidence 95 (the source
table is "unknown" because the visitor resolves unqualified column
references to "unknown"); `tableReferences` is `[t]` and `errors` is
empty. -/
theorem insertSelect_lineage
    (rp : String → Except String StatementCtx) (env : Env)
    (sql t a x s : String) (h : rp sql = Except.ok (mkInsertSelect t a x s)) :
    SqlLineageParser.parseQuery rp env sql =
      { queryType := "INSERT",
        columnLineages :=
          [{ sourceColumn := { tableName := "unknown", columnName := x },
             targetColumn := { tableName := "result", columnName := x },
             transformationType := TransformationType.DIRECT,
             expression := "unknown" ++ "." ++ x,
             confidence := 100 },
           { sourceColumn := { tableName := "unknown", columnName := x },
             targetColumn := { tableName := t, columnName := a },
             transformationType := TransformationType.DIRECT,
             expression := "unknown" ++ "." ++ x,
             confidence := 95 }],
        tableReferences := [t],
        errors := [] } := by
  simp [SqlLineageParser.parseQuery, h, ColumnLineageVisitor.visit,
    ColumnLineageVisitor.visitInsert_statement,
    ColumnLineageVisitor.visitSelect_statement,
    ColumnLineageVisitor.extractTableAliases,
    ColumnLineageVisitor.processSelectItems,
    ColumnLineageVisitor.processSelectItem,
    ColumnLineageVisitor.resolveTableName,
    ColumnLineageVisitor.mapInsertColumns,
    ColumnLineageVisitor.initState, ColumnLineageVisitor.mapSet,
    ColumnLineageVisitor.jsOr, mkInsertSelect]

/-- C2 (witness for the amended theorem): the amended statement
instantiated at `INSERT INTO tw (aw) SELECT xw FROM sw`. -/
theorem insertSelect_lineage_witness :
    SqlLineageParser.parseQuery
        (fun _ => Except.ok (mkInsertSelect "tw" "aw" "xw" "sw")) env0
        "INSERT INTO tw (aw) SELECT xw FROM sw" =
      { queryType := "INSERT",
        columnLineages :=
          [{ sourceColumn := { tableName := "unknown", columnName := "xw" },
             targetColumn := { tableName := "result", columnName := "xw" },
             transformationType := TransformationType.DIRECT,
             expression := "unknown" ++ "." ++ "xw",
             confidence := 100 },
           { sourceColumn := { tableName := "unknown", columnName := "xw" },
             targetColumn := { tableName := "tw", columnName := "aw" },
             transformationType := TransformationType.DIRECT,
             expression := "unknown" ++ "." ++ "xw",
             confidence := 95 }],
        tableReferences := ["tw"],
        errors := [] } :=
  insertSelect_lineage (fun _ => Except.ok (mkInsertSelect "tw" "aw" "xw" "sw"))
    env0 "INSERT INTO tw (aw) SELECT xw FROM sw" "tw" "aw" "xw" "sw" rfl

namespace ColumnLineageVisitor

/-- Every edge `processArgs` appends is well formed. -/
theorem processArgs_wf (fname aliasName exprText : String)
    (args : List ExpressionCtx) :
    ∀ (st : VisitorState),
    (∀ e ∈ st.columnLineages, EdgeWellFormed e) →
    ∀ e ∈ (processArgs fname aliasName exprText st args).columnLineages,
      EdgeWellFormed e := by
  induction args with
  | nil => intro st hst; simpa [processArgs] using hst
  | cons a rest ih =>
    intro st hst
    rw [processArgs]
    cases hx : extractColumnFromExpression st a with
    | none => exact ih st hst
    | some ref =>
      refine ih _ ?_
      intro e he
      rcases List.mem_append.mp he with h1 | h2
      · exact hst e h1
      · rw [List.mem_singleton] at h2
        subst h2
        by_cases hagg : isAggregateFunction fname
        · exact Or.inl ⟨rfl, Or.inl (by simp [hagg])⟩
        · exact Or.inl ⟨rfl, Or.inr (by simp [hagg])⟩

/-- Every edge `processSelectItem` appends is well formed. -/
theorem processSelectItem_wf (st : VisitorState) (item : SelectItemCtx) (i : Nat)
    (hst : ∀ e ∈ st.columnLineages, EdgeWellFormed e) :
    ∀ e ∈ (processSelectItem st item i).columnLineages, EdgeWellFormed e := by
  rw [processSelectItem]
  cases hx : item.expression with
  | col c =>
    intro e he
    rcases List.mem_append.mp he with h1 | h2
    · exact hst e h1
    · rw [List.mem_singleton] at h2
      subst h2
      exact Or.inr (Or.inr ⟨rfl, rfl⟩)
  | func fname args text => exact processArgs_wf _ _ _ args st hst
  | other t => exact hst

/-- Every edge the SELECT-list loop appends is well formed. -/
theorem processSelectItems_wf (items : List SelectItemCtx) :
    ∀ (st : VisitorState) (i : Nat),
    (∀ e ∈ st.columnLineages, EdgeWellFormed e) →
    ∀ e ∈ (processSelectItems st items i).columnLineages, EdgeWellFormed e := by
  induction items with
  | nil => intro st i hst; simpa [processSelectItems] using hst
  | cons item rest ih =>
    intro st i hst
    rw [processSelectItems]
    exact ih _ _ (processSelectItem_wf st item i hst)

/-- Every edge in a SELECT visit's result is well formed. -/
theorem visitSelect_wf (st : VisitorState) (ctx : SelectStatementCtx)
    (hst : ∀ e ∈ st.columnLineages, EdgeWellFormed e) :
    ∀ e ∈ (visitSelect_statement st ctx).1.columnLineages, EdgeWellFormed e := by
  rw [visitSelect_statement]
  exact processSelectItems_wf _ _ _ (by simpa [extractTableAliases] using hst)

/-- Every edge the INSERT-mapping loop appends is well formed (it has
confidence 95). -/
theorem mapInsertColumns_wf (tgt : String) (cols : List String)
    (l : List ParsedColumnLineage) :
    ∀ (st : VisitorState) (i : Nat),
    (∀ e ∈ st.columnLineages, EdgeWellFormed e) →
    ∀ e ∈ (mapInsertColumns tgt cols st l i).columnLineages, EdgeWellFormed e := by
  induction l with
  | nil => intro st i hst; simpa [mapInsertColumns] using hst
  | cons a rest ih =>
    intro st i hst
    rw [mapInsertColumns]
    cases hx : cols.get? i with
    | none => exact ih st (i + 1) hst
    | some colName =>
      refine ih _ _ ?_
      intro e he
      rcases List.mem_append.mp he with h1 | h2
      · exact hst e h1
      · rw [List.mem_singleton] at h2
        subst h2
        exact Or.inr (Or.inl rfl)

/-- Every edge a full visit emits from a fresh visitor is well formed. -/
theorem visit_wf (tree : StatementCtx) :
    ∀ e ∈ (visit initState tree).1.columnLineages, EdgeWellFormed e := by
  cases tree with
  | select s =>
    exact visitSelect_wf _ s (by simp [initState])
  | insert i =>
    rw [visit, visitInsert_statement]
    cases hsel : i.select_statement with
    | none => simp [initState]
    | some sel =>
      intro e he
      refine mapInsertColumns_wf _ _ _ _ _ ?_ e he
      intro f hf
      exact visitSelect_wf _ sel (by simp [initState]) f hf

/-- The `columnLineages` of the returned `ParsedQuery` and of the final
visitor state of a SELECT visit coincide. -/
theorem visitSelect_fst_snd (st : VisitorState) (ctx : SelectStatementCtx) :
    (visitSelect_statement st ctx).1.columnLineages =
      (visitSelect_statement st ctx).2.columnLineages := rfl

/-- Length of the accumulator after the INSERT-mapping loop: one edge is
appended per position that exists on both sides, i.e. the number of
aligned positions. -/
theorem mapInsertColumns_length (tgt : String) (cols : List String)
    (l : List ParsedColumnLineage) :
    ∀ (st : VisitorState) (i : Nat),
    (mapInsertColumns tgt cols st l i).columnLineages.length =
      st.columnLineages.length + min l.length (cols.length - i) := by
  induction l with
  | nil => intro st i; simp [mapInsertColumns]
  | cons a rest ih =>
    intro st i
    by_cases h : i < cols.length
    · rw [mapInsertColumns, List.get?_eq_get h]
      simp only [ih]
      simp only [List.length_append, List.length_cons, List.length_nil]
      omega
    · rw [mapInsertColumns, List.get?_eq_none.mpr (Nat.le_of_not_lt h)]
      simp only [ih]
      simp only [List.length_cons]
      omega

end ColumnLineageVisitor

/-- C4 (counterexample): not every DIRECT edge has confidence exactly
100.  Parsing `INSERT INTO orders (total) SELECT amount FROM staging`
emits an edge classified DIRECT whose confidence is 95 (the
INSERT-mapped copy of the SELECT-stage DIRECT edge). -/
theorem direct_confidence_counterexample :
    ∃ e ∈ (SqlLineageParser.parseQuery
        (fun _ => Except.ok (mkInsertSelect "orders" "total" "amount" "staging"))
        env0 "INSERT INTO orders (total) SELECT amount FROM staging").columnLineages,
      e.transformationType = TransformationType.DIRECT ∧
      e.confidence = 95 ∧ e.confidence ≠ 100 := by
  decide

/-- C4 (amended): every edge emitted by `parseQuery`, for every input
and grammar run, has confidence in [0,100] (it is one of 90, 95, 100);
an edge classified DIRECT has confidence 100 when emitted by the
SELECT-list extractor, or 95 when re-emitted by the INSERT
column-mapping stage. -/
theorem parseQuery_confidence_invariant
    (rp : String → Except String StatementCtx) (env : Env) (sql : String)
    (e : ParsedColumnLineage)
    (h : e ∈ (SqlLineageParser.parseQuery rp env sql).columnLineages) :
    e.confidence ≤ 100 ∧
    (e.confidence = 90 ∨ e.confidence = 95 ∨ e.confidence = 100) ∧
    (e.transformationType = TransformationType.DIRECT →
      e.confidence = 100 ∨ e.confidence = 95) := by
  unfold SqlLineageParser.parseQuery at h
  cases hp : rp sql with
  | error msg => rw [hp] at h; simp at h
  | ok tree =>
    rw [hp] at h
    simp only at h
    have hwf := ColumnLineageVisitor.visit_wf tree e h
    rcases hwf with ⟨h90, hty⟩ | h95 | ⟨h100, hty⟩
    · refine ⟨by omega, Or.inl h90, fun hd => ?_⟩
      rcases hty with h1 | h1 <;> rw [hd] at h1 <;> exact absurd h1 (by decide)
    · exact ⟨by omega, Or.inr (Or.inl h95), fun _ => Or.inr h95⟩
    · exact ⟨by omega, Or.inr (Or.inr h100), fun _ => Or.inl h100⟩

/-- C4 (witness): the invariant instantiated at the SELECT-stage edge of
`INSERT INTO tc (ac) SELECT xc FROM sc`. -/
theorem parseQuery_confidence_invariant_witness :
    ({ sourceColumn := { tableName := "unknown", columnName := "xc" },
       targetColumn := { tableName := "result", columnName := "xc" },
       transformationType := TransformationType.DIRECT,
       expression := "unknown.xc",
       confidence := 100 } : ParsedColumnLineage).confidence ≤ 100 ∧
    (({ sourceColumn := { tableName := "unknown", columnName := "xc" },
        targetColumn := { tableName := "result", columnName := "xc" },
        transformationType := TransformationType.DIRECT,
        expression := "unknown.xc",
        confidence := 100 } : ParsedColumnLineage).confidence = 90 ∨
      ({ sourceColumn := { tableName := "unknown", columnName := "xc" },
         targetColumn := { tableName := "result", columnName := "xc" },
         transformationType := TransformationType.DIRECT,
         expression := "unknown.xc",
         confidence := 100 } : ParsedColumnLineage).confidence = 95 ∨
      ({ sourceColumn := { tableName := "unknown", columnName := "xc" },
         targetColumn := { tableName := "result", columnName := "xc" },
         transformationType := TransformationType.DIRECT,
         expression := "unknown.xc",
         confidence := 100 } : ParsedColumnLineage).confidence = 100) ∧
    (({ sourceColumn := { tableName := "unknown", columnName := "xc" },
        targetColumn := { tableName := "result", columnName := "xc" },
        transformationType := TransformationType.DIRECT,
        expression := "unknown.xc",
        confidence := 100 } : ParsedColumnLineage).transformationType =
        TransformationType.DIRECT →
      ({ sourceColumn := { tableName := "unknown", columnName := "xc" },
         targetColumn := { tableName := "result", columnName := "xc" },
         transformationType := TransformationType.DIRECT,
         expression := "unknown.xc",
         confidence := 100 } : ParsedColumnLineage).confidence = 100 ∨
      ({ sourceColumn := { tableName := "unknown", columnName := "xc" },
         targetColumn := { tableName := "result", columnName := "xc" },
         transformationType := TransformationType.DIRECT,
         expression := "unknown.xc",
         confidence := 100 } : ParsedColumnLineage).confidence = 95) :=
  parseQuery_confidence_invariant
    (fun _ => Except.ok (mkInsertSelect "tc" "ac" "xc" "sc")) env0
    "INSERT INTO tc (ac) SELECT xc FROM sc" _ (by decide)

/-- Helper: the SELECT-list loop on bare unqualified columns appends
exactly one "unknown"-sourced DIRECT edge of confidence 100 per column,
whatever the visitor state. -/
theorem processSelectItems_bare (names : List String)
    (st : ColumnLineageVisitor.VisitorState) (i : Nat) :
    ColumnLineageVisitor.processSelectItems st (names.map mkBareItem) i =
      { st with columnLineages := st.columnLineages ++ names.map mkUnknownEdge } := by
  induction names generalizing st i with
  | nil => simp [ColumnLineageVisitor.processSelectItems]
  | cons n rest ih =>
    simp [ColumnLineageVisitor.processSelectItems,
      ColumnLineageVisitor.processSelectItem,
      ColumnLineageVisitor.resolveTableName, ColumnLineageVisitor.jsOr,
      mkBareItem, mkUnknownEdge, ih]

/-- C6 (counterexample): for `SELECT id FROM a JOIN b` with `id` present
in both `a` and `b` (two candidate source tables), the result does not
contain one edge per candidate with confidence below 100: it contains a
single edge whose source table is the placeholder "unknown" and whose
confidence is exactly 100, and no error is recorded. -/
theorem ambiguous_unqualified_counterexample :
    2 ≤ (specCandidateTables ambiguousSymbols ambiguousFrom "id").length ∧
    (SqlLineageParser.parseQuery (fun _ => Except.ok mkAmbiguousSelect) env0
        "SELECT id FROM a JOIN b").columnLineages =
      [{ sourceColumn := { tableName := "unknown", columnName := "id" },
         targetColumn := { tableName := "result", columnName := "id" },
         transformationType := TransformationType.DIRECT,
         expression := "unknown.id",
         confidence := 100 }] ∧
    (∀ e ∈ (SqlLineageParser.parseQuery (fun _ => Except.ok mkAmbiguousSelect)
        env0 "SELECT id FROM a JOIN b").columnLineages, e.confidence = 100) ∧
    (SqlLineageParser.parseQuery (fun _ => Except.ok mkAmbiguousSelect) env0
        "SELECT id FROM a JOIN b").errors = [] := by
  decide

/-- C6 (amended): an unqualified column reference never produces
per-candidate edges; the visitor resolves it to the placeholder table
"unknown" and emits exactly one DIRECT edge with confidence 100 per
referenced column, however many candidate tables contain the name, and
the ambiguity never causes the statement to fail (`errors` is empty). -/
theorem unqualified_resolved_as_unknown
    (rp : String → Except String StatementCtx) (env : Env) (sql : String)
    (names : List String) (tabs : List TableSourceCtx)
    (h : rp sql = Except.ok (StatementCtx.select
      { select_list := names.map mkBareItem, from_clause := tabs })) :
    (SqlLineageParser.parseQuery rp env sql).columnLineages =
      names.map mkUnknownEdge ∧
    (SqlLineageParser.parseQuery rp env sql).errors = [] ∧
    (∀ e ∈ (SqlLineageParser.parseQuery rp env sql).columnLineages,
      e.sourceColumn.tableName = "unknown" ∧ e.confidence = 100) := by
  have h1 : (SqlLineageParser.parseQuery rp env sql).columnLineages =
      names.map mkUnknownEdge := by
    simp [SqlLineageParser.parseQuery, h, ColumnLineageVisitor.visit,
      ColumnLineageVisitor.visitSelect_statement, processSelectItems_bare,
      ColumnLineageVisitor.extractTableAliases, ColumnLineageVisitor.initState]
  refine ⟨h1, ?_, ?_⟩
  · simp [SqlLineageParser.parseQuery, h, ColumnLineageVisitor.visit,
      ColumnLineageVisitor.visitSelect_statement]
  · intro e he
    rw [h1] at he
    obtain ⟨n, _, rfl⟩ := List.mem_map.mp he
    exact ⟨rfl, rfl⟩

/-- C6 (witness for the amended theorem): instantiated at
`SELECT idw FROM aw JOIN bw`. -/
theorem unqualified_resolved_as_unknown_witness :
    (SqlLineageParser.parseQuery
        (fun _ => Except.ok (StatementCtx.select
          { select_list := (["idw"]).map mkBareItem,
            from_clause := [{ table := "aw", tableAlias := none },
                            { table := "bw", tableAlias := none }] })) env0
        "SELECT idw FROM aw JOIN bw").columnLineages =
      (["idw"]).map mkUnknownEdge ∧
    (SqlLineageParser.parseQuery
        (fun _ => Except.ok (StatementCtx.select
          { select_list := (["idw"]).map mkBareItem,
            from_clause := [{ table := "aw", tableAlias := none },
                            { table := "bw", tableAlias := none }] })) env0
        "SELECT idw FROM aw JOIN bw").errors = [] ∧
    (∀ e ∈ (SqlLineageParser.parseQuery
        (fun _ => Except.ok (StatementCtx.select
          { select_list := (["idw"]).map mkBareItem,
            from_clause := [{ table := "aw", tableAlias := none },
                            { table := "bw", tableAlias := none }] })) env0
        "SELECT idw FROM aw JOIN bw").columnLineages,
      e.sourceColumn.tableName = "unknown" ∧ e.confidence = 100) :=
  unqualified_resolved_as_unknown
    (fun _ => Except.ok (StatementCtx.select
      { select_list := (["idw"]).map mkBareItem,
        from_clause := [{ table := "aw", tableAlias := none },
                        { table := "bw", tableAlias := none }] })) env0
    "SELECT idw FROM aw JOIN bw" ["idw"]
    [{ table := "aw", tableAlias := none }, { table := "bw", tableAlias := none }]
    rfl

/-- C7 (counterexample): for `INSERT INTO t (a) SELECT x, y FROM s`
(two SELECT output columns, one target column) the mismatch is dropped
silently: the `errors` list stays empty, contrary to the claim that an
entry is recorded; the aligned position still yields the `t.a` edge. -/
theorem insert_arity_mismatch_counterexample :
    (SqlLineageParser.parseQuery (fun _ => Except.ok arityMismatchInsert) env0
        "INSERT INTO t (a) SELECT x, y FROM s").errors = [] ∧
    arityMismatchSelect.select_list.length = 2 ∧
    (["a"] : List String).length = 1 ∧
    (SqlLineageParser.parseQuery (fun _ => Except.ok arityMismatchInsert) env0
        "INSERT INTO t (a) SELECT x, y FROM s").columnLineages =
      [mkUnknownEdge "x", mkUnknownEdge "y",
       { sourceColumn := { tableName := "unknown", columnName := "x" },
         targetColumn := { tableName := "t", columnName := "a" },
         transformationType := TransformationType.DIRECT,
         expression := "unknown.x",
         confidence := 95 }] := by
  decide

/-- C7 (amended): when the SELECT of an `INSERT ... SELECT` produces
more or fewer output columns than the target list, the unaligned
positions are dropped silently — the returned `errors` list is empty,
no entry is recorded — while every aligned position still yields an
INSERT-mapped edge: the total number of edges is the number of
SELECT-stage edges plus the number of aligned positions
(min of SELECT-edge count and target-column count), and the statement
is not failed. -/
theorem insert_arity_mismatch_silent
    (rp : String → Except String StatementCtx) (env : Env) (sql : String)
    (t : String) (cols : List String) (sel : SelectStatementCtx)
    (h : rp sql = Except.ok (StatementCtx.insert
      { table_name := t, column_name_list := some cols,
        select_statement := some sel })) :
    (SqlLineageParser.parseQuery rp env sql).errors = [] ∧
    (SqlLineageParser.parseQuery rp env sql).columnLineages.length =
      (ColumnLineageVisitor.visitSelect_statement
          { ColumnLineageVisitor.initState with currentTargetTable := some t }
          sel).1.columnLineages.length +
        min (ColumnLineageVisitor.visitSelect_statement
          { ColumnLineageVisitor.initState with currentTargetTable := some t }
          sel).1.columnLineages.length cols.length := by
  constructor
  · simp [SqlLineageParser.parseQuery, h, ColumnLineageVisitor.visit,
      ColumnLineageVisitor.visitInsert_statement]
  · simp only [SqlLineageParser.parseQuery, h, ColumnLineageVisitor.visit,
      ColumnLineageVisitor.visitInsert_statement, ColumnLineageVisitor.initState]
    rw [ColumnLineageVisitor.mapInsertColumns_length,
      ColumnLineageVisitor.visitSelect_fst_snd]
    simp

/-- C7 (witness for the amended theorem): instantiated at
`INSERT INTO t (a) SELECT x, y FROM s` — errors stay empty and the edge
count is the two SELECT-stage edges plus the single aligned position. -/
theorem insert_arity_mismatch_silent_witness :
    (SqlLineageParser.parseQuery (fun _ => Except.ok arityMismatchInsert) env0
        "INSERT INTO t (a) SELECT x, y FROM s").errors = [] ∧
    (SqlLineageParser.parseQuery (fun _ => Except.ok arityMismatchInsert) env0
        "INSERT INTO t (a) SELECT x, y FROM s").columnLineages.length =
      (ColumnLineageVisitor.visitSelect_statement
          { ColumnLineageVisitor.initState with currentTargetTable := some "t" }
          arityMismatchSelect).1.columnLineages.length +
        min (ColumnLineageVisitor.visitSelect_statement
          { ColumnLineageVisitor.initState with currentTargetTable := some "t" }
          arityMismatchSelect).1.columnLineages.length
          (["a"] : List String).length :=
  insert_arity_mismatch_silent (fun _ => Except.ok arityMismatchInsert) env0
    "INSERT INTO t (a) SELECT x, y FROM s" "t" ["a"] arityMismatchSelect rfl

namespace Storage

/-- Helper: when the duplicate-key test of `createColumnLineage` is
false, no stored row shares the key of the insert. -/
theorem key_of_mem_any_false (db : DB) (ins : InsertColumnLineage)
    (hfalse : db.columnLineage.any (fun r =>
      r.sourceColumnId == ins.sourceColumnId &&
      r.targetColumnId == ins.targetColumnId) = false) :
    ∀ x ∈ db.columnLineage,
      (x.sourceColumnId, x.targetColumnId) ≠
        (ins.sourceColumnId, ins.targetColumnId) := by
  intro x hx hkey
  have h1 : x.sourceColumnId = ins.sourceColumnId := (Prod.mk.injEq _ _ _ _ ▸ hkey).1
  have h2 : x.targetColumnId = ins.targetColumnId := (Prod.mk.injEq _ _ _ _ ▸ hkey).2
  have := List.any_eq_false.mp hfalse x hx
  simp [h1, h2] at this

/-- C8: the persisted column-lineage store keeps at most one row per
(sourceColumnId, targetColumnId) pair.  Starting from any store
satisfying the `unique_column_lineage` key invariant, any sequence of
`createColumnLineage` upserts preserves it: no two stored rows ever
share both the source and the target column id. -/
theorem runColumnLineageInserts_unique (ops : List InsertColumnLineage) :
    ∀ db : DB, columnLineageKeyUnique db →
      columnLineageKeyUnique (runColumnLineageInserts db ops) := by
  induction ops with
  | nil => intro db h; simpa [runColumnLineageInserts] using h
  | cons op rest ih =>
    intro db h
    rw [runColumnLineageInserts]
    cases hc : createColumnLineage db op with
    | error e => exact ih db h
    | ok p =>
      refine ih p.1 ?_
      unfold createColumnLineage at hc
      by_cases hany : db.columnLineage.any (fun r =>
          r.sourceColumnId == op.sourceColumnId &&
          r.targetColumnId == op.targetColumnId) = true
      · rw [if_pos hany] at hc; cases hc
      · rw [if_neg hany] at hc
        have hp1 := congrArg Prod.fst (Except.ok.inj hc)
        rw [← hp1]
        unfold columnLineageKeyUnique
        simp only [List.map_append, List.map_cons, List.map_nil]
        rw [List.nodup_append]
        refine ⟨h, List.nodup_singleton _, ?_⟩
        intro k hk hk2
        rw [List.mem_singleton] at hk2
        obtain ⟨x, hx, hxk⟩ := List.mem_map.mp hk
        subst hk2
        exact key_of_mem_any_false db op (Bool.eq_false_iff.mpr hany) x hx hxk

/-- C8 (witness): a batch that inserts the same (source, target) key
twice and a second key once leaves the store unique; the duplicate
insert is rejected by the key. -/
theorem runColumnLineageInserts_unique_witness :
    columnLineageKeyUnique (runColumnLineageInserts emptyDB
      [{ sourceColumnId := 1, targetColumnId := 2,
         transformationType := "direct", transformationLogic := none,
         confidence := 100 },
       { sourceColumnId := 1, targetColumnId := 2,
         transformationType := "calculated", transformationLogic := none,
         confidence := 80 },
       { sourceColumnId := 2, targetColumnId := 3,
         transformationType := "direct", transformationLogic := none,
         confidence := 100 }]) :=
  runColumnLineageInserts_unique
    [{ sourceColumnId := 1, targetColumnId := 2,
       transformationType := "direct", transformationLogic := none,
       confidence := 100 },
     { sourceColumnId := 1, targetColumnId := 2,
       transformationType := "calculated", transformationLogic := none,
       confidence := 80 },
     { sourceColumnId := 2, targetColumnId := 3,
       transformationType := "direct", transformationLogic := none,
       confidence := 100 }]
    emptyDB (by simp [columnLineageKeyUnique, emptyDB])

/-- Helper: membership through one descending-order insertion step. -/
theorem insertByCreatedDesc_mem (r a : TableLineageRec) (l : List TableLineageRec) :
    a ∈ insertByCreatedDesc r l ↔ a = r ∨ a ∈ l := by
  induction l with
  | nil => simp [insertByCreatedDesc]
  | cons x xs ih =>
    rw [insertByCreatedDesc]
    split_ifs with h
    · simp [List.mem_cons]
    · simp only [List.mem_cons, ih]
      tauto

/-- Helper: `ORDER BY created_at DESC` only permutes, it never adds or
drops rows. -/
theorem orderByCreatedAtDesc_mem (a : TableLineageRec) (l : List TableLineageRec) :
    a ∈ orderByCreatedAtDesc l ↔ a ∈ l := by
  induction l with
  | nil => simp [orderByCreatedAtDesc]
  | cons x xs ih =>
    rw [orderByCreatedAtDesc, insertByCreatedDesc_mem]
    simp [List.mem_cons, ih]

end Storage

/-- C9: every row returned by `getTableLineageByTableId` has BOTH its
source table id and its target table id equal to the requested id
(the filter is a conjunction of the two equalities); consequently a
lineage row connecting two distinct tables is never returned by this
operation, for either of its endpoints. -/
theorem getTableLineageByTableId_endpoints (db : Storage.DB) (tid : Nat) :
    (∀ r ∈ Storage.getTableLineageByTableId db tid,
       r.sourceTableId = tid ∧ r.targetTableId = tid) ∧
    (∀ r : Storage.TableLineageRec, r.sourceTableId ≠ r.targetTableId →
       r ∉ Storage.getTableLineageByTableId db tid) := by
  have hmem : ∀ r ∈ Storage.getTableLineageByTableId db tid,
      r.sourceTableId = tid ∧ r.targetTableId = tid := by
    intro r hr
    rw [Storage.getTableLineageByTableId, Storage.orderByCreatedAtDesc_mem] at hr
    have hf := (List.mem_filter.mp hr).2
    rw [Bool.and_eq_true, beq_iff_eq, beq_iff_eq] at hf
    exact hf
  refine ⟨hmem, ?_⟩
  intro r hneq hmemr
  obtain ⟨h1, h2⟩ := hmem r hmemr
  exact hneq (h1.trans h2.symm)

/-- C9 (witness): on a store holding a self-loop row on table 5 and a
cross-table row 5 -> 7, the endpoints theorem instantiated at the
returned self-loop row yields both endpoints equal to 5. -/
theorem getTableLineageByTableId_endpoints_witness :
    ({ id := 0, sourceTableId := 5, targetTableId := 5,
       transformationType := "direct", createdAt := 10 } :
        Storage.TableLineageRec).sourceTableId = 5 ∧
    ({ id := 0, sourceTableId := 5, targetTableId := 5,
       transformationType := "direct", createdAt := 10 } :
        Storage.TableLineageRec).targetTableId = 5 :=
  (getTableLineageByTableId_endpoints Storage.exampleLineageDB 5).1
    { id := 0, sourceTableId := 5, targetTableId := 5,
      transformationType := "direct", createdAt := 10 } (by decide)

namespace Storage

/-- The table-creation loop touches only the `tables` list and the id
supply: all other collections are unchanged, the supply only grows, and
every row it leaves in `tables` is either pre-existing or freshly
numbered. -/
theorem loadDataTablesLoop_frame (env : Env) (schemaId : Nat)
    (l : List SnowTableRow) :
    ∀ (db : DB) (k : Nat),
      (loadDataTablesLoop env schemaId db l k).1.databases = db.databases ∧
      (loadDataTablesLoop env schemaId db l k).1.schemas = db.schemas ∧
      (loadDataTablesLoop env schemaId db l k).1.columns = db.columns ∧
      (loadDataTablesLoop env schemaId db l k).1.columnLineage = db.columnLineage ∧
      (loadDataTablesLoop env schemaId db l k).1.tableLineage = db.tableLineage ∧
      (loadDataTablesLoop env schemaId db l k).1.projects = db.projects ∧
      (loadDataTablesLoop env schemaId db l k).1.dataQualityRules =
        db.dataQualityRules ∧
      (loadDataTablesLoop env schemaId db l k).1.dataAccessPolicies =
        db.dataAccessPolicies ∧
      db.nextId ≤ (loadDataTablesLoop env schemaId db l k).1.nextId ∧
      (∀ r ∈ (loadDataTablesLoop env schemaId db l k).1.tables,
        r ∈ db.tables ∨ db.nextId ≤ r.id) := by
  induction l with
  | nil =>
    intro db k
    refine ⟨rfl, rfl, rfl, rfl, rfl, rfl, rfl, rfl, le_refl _, ?_⟩
    intro r hr
    exact Or.inl hr
  | cons t rest ih =>
    intro db k
    rw [loadDataTablesLoop]
    obtain ⟨d1, d2, d3, d4, d5, d6, d7, d8, dmon, dtab⟩ :=
      ih (createTable db
        { name := t.table_name,
          schemaId := schemaId,
          description := some ((t.comment).getD
            ("Snowflake " ++ jsToLower t.table_type ++ ": " ++ t.table_name)),
          tableType := if jsToLower t.table_type == "view" then "view" else "table",
          rowCount := (t.row_count).getD 0,
          sizeBytes := (t.bytes).getD 0,
          posX := env.randoms (2 * k) % 800 + 100,
          posY := env.randoms (2 * k + 1) % 600 + 100 }).1 (k + 1)
    refine ⟨d1, d2, d3, d4, d5, d6, d7, d8, ?_, ?_⟩
    · exact le_trans (Nat.le_succ _) dmon
    · intro r hr
      rcases dtab r hr with hin | hge
      · rcases List.mem_append.mp hin with hold | hnew
        · exact Or.inl hold
        · rw [List.mem_singleton] at hnew
          subst hnew
          exact Or.inr (le_refl _)
      · exact Or.inr (le_trans (Nat.le_succ _) hge)

/-- The column-creation loop touches only the `columns` list and the id
supply. -/
theorem loadDataColumnsLoop_frame (createdTables : List TableRec)
    (l : List SnowColumnRow) :
    ∀ (db : DB),
      (loadDataColumnsLoop createdTables db l).1.databases = db.databases ∧
      (loadDataColumnsLoop createdTables db l).1.schemas = db.schemas ∧
      (loadDataColumnsLoop createdTables db l).1.tables = db.tables ∧
      (loadDataColumnsLoop createdTables db l).1.columnLineage = db.columnLineage ∧
      (loadDataColumnsLoop createdTables db l).1.tableLineage = db.tableLineage ∧
      (loadDataColumnsLoop createdTables db l).1.projects = db.projects ∧
      (loadDataColumnsLoop createdTables db l).1.dataQualityRules =
        db.dataQualityRules ∧
      (loadDataColumnsLoop createdTables db l).1.dataAccessPolicies =
        db.dataAccessPolicies ∧
      db.nextId ≤ (loadDataColumnsLoop createdTables db l).1.nextId ∧
      (∀ r ∈ (loadDataColumnsLoop createdTables db l).1.columns,
        r ∈ db.columns ∨ db.nextId ≤ r.id) := by
  induction l with
  | nil =>
    intro db
    refine ⟨rfl, rfl, rfl, rfl, rfl, rfl, rfl, rfl, le_refl _, ?_⟩
    intro r hr
    exact Or.inl hr
  | cons c rest ih =>
    intro db
    rw [loadDataColumnsLoop]
    cases hfind : createdTables.find? (fun t => t.name == c.table_name) with
    | none => exact ih db
    | some t =>
      obtain ⟨d1, d2, d3, d4, d5, d6, d7, d8, dmon, dcol⟩ :=
        ih (createColumn db
          { name := c.column_name, tableId := t.id, dataType := c.data_type,
            isNullable := c.is_nullable == "YES",
            ordinalPosition := c.ordinal_position }).1
      refine ⟨d1, d2, d3, d4, d5, d6, d7, d8, ?_, ?_⟩
      · exact le_trans (Nat.le_succ _) dmon
      · intro r hr
        rcases dcol r hr with hin | hge
        · rcases List.mem_append.mp hin with hold | hnew
          · exact Or.inl hold
          · rw [List.mem_singleton] at hnew
            subst hnew
            exact Or.inr (le_refl _)
        · exact Or.inr (le_trans (Nat.le_succ _) hge)

theorem tablesLoop_databases (env : Env) (sid : Nat) (l : List SnowTableRow)
    (db : DB) (k : Nat) :
    (loadDataTablesLoop env sid db l k).1.databases = db.databases :=
  (loadDataTablesLoop_frame env sid l db k).1

theorem tablesLoop_schemas (env : Env) (sid : Nat) (l : List SnowTableRow)
    (db : DB) (k : Nat) :
    (loadDataTablesLoop env sid db l k).1.schemas = db.schemas :=
  (loadDataTablesLoop_frame env sid l db k).2.1

theorem tablesLoop_columns (env : Env) (sid : Nat) (l : List SnowTableRow)
    (db : DB) (k : Nat) :
    (loadDataTablesLoop env sid db l k).1.columns = db.columns :=
  (loadDataTablesLoop_frame env sid l db k).2.2.1

theorem tablesLoop_columnLineage (env : Env) (sid : Nat) (l : List SnowTableRow)
    (db : DB) (k : Nat) :
    (loadDataTablesLoop env sid db l k).1.columnLineage = db.columnLineage :=
  (loadDataTablesLoop_frame env sid l db k).2.2.2.1

theorem tablesLoop_tableLineage (env : Env) (sid : Nat) (l : List SnowTableRow)
    (db : DB) (k : Nat) :
    (loadDataTablesLoop env sid db l k).1.tableLineage = db.tableLineage :=
  (loadDataTablesLoop_frame env sid l db k).2.2.2.2.1

theorem tablesLoop_projects (env : Env) (sid : Nat) (l : List SnowTableRow)
    (db : DB) (k : Nat) :
    (loadDataTablesLoop env sid db l k).1.projects = db.projects :=
  (loadDataTablesLoop_frame env sid l db k).2.2.2.2.2.1

theorem tablesLoop_dataQualityRules (env : Env) (sid : Nat)
    (l : List SnowTableRow) (db : DB) (k : Nat) :
    (loadDataTablesLoop env sid db l k).1.dataQualityRules =
      db.dataQualityRules :=
  (loadDataTablesLoop_frame env sid l db k).2.2.2.2.2.2.1

theorem tablesLoop_dataAccessPolicies (env : Env) (sid : Nat)
    (l : List SnowTableRow) (db : DB) (k : Nat) :
    (loadDataTablesLoop env sid db l k).1.dataAccessPolicies =
      db.dataAccessPolicies :=
  (loadDataTablesLoop_frame env sid l db k).2.2.2.2.2.2.2.1

theorem tablesLoop_nextId_le (env : Env) (sid : Nat) (l : List SnowTableRow)
    (db : DB) (k : Nat) :
    db.nextId ≤ (loadDataTablesLoop env sid db l k).1.nextId :=
  (loadDataTablesLoop_frame env sid l db k).2.2.2.2.2.2.2.2.1

theorem tablesLoop_tables_mem (env : Env) (sid : Nat) (l : List SnowTableRow)
    (db : DB) (k : Nat) (r : TableRec)
    (h : r ∈ (loadDataTablesLoop env sid db l k).1.tables) :
    r ∈ db.tables ∨ db.nextId ≤ r.id :=
  (loadDataTablesLoop_frame env sid l db k).2.2.2.2.2.2.2.2.2 r h

theorem colsLoop_databases (ct : List TableRec) (l : List SnowColumnRow)
    (db : DB) :
    (loadDataColumnsLoop ct db l).1.databases = db.databases :=
  (loadDataColumnsLoop_frame ct l db).1

theorem colsLoop_schemas (ct : List TableRec) (l : List SnowColumnRow)
    (db : DB) :
    (loadDataColumnsLoop ct db l).1.schemas = db.schemas :=
  (loadDataColumnsLoop_frame ct l db).2.1

theorem colsLoop_tables (ct : List TableRec) (l : List SnowColumnRow)
    (db : DB) :
    (loadDataColumnsLoop ct db l).1.tables = db.tables :=
  (loadDataColumnsLoop_frame ct l db).2.2.1

theorem colsLoop_columnLineage (ct : List TableRec) (l : List SnowColumnRow)
    (db : DB) :
    (loadDataColumnsLoop ct db l).1.columnLineage = db.columnLineage :=
  (loadDataColumnsLoop_frame ct l db).2.2.2.1

theorem colsLoop_tableLineage (ct : List TableRec) (l : List SnowColumnRow)
    (db : DB) :
    (loadDataColumnsLoop ct db l).1.tableLineage = db.tableLineage :=
  (loadDataColumnsLoop_frame ct l db).2.2.2.2.1

theorem colsLoop_projects (ct : List TableRec) (l : List SnowColumnRow)
    (db : DB) :
    (loadDataColumnsLoop ct db l).1.projects = db.projects :=
  (loadDataColumnsLoop_frame ct l db).2.2.2.2.2.1

theorem colsLoop_dataQualityRules (ct : List TableRec) (l : List SnowColumnRow)
    (db : DB) :
    (loadDataColumnsLoop ct db l).1.dataQualityRules = db.dataQualityRules :=
  (loadDataColumnsLoop_frame ct l db).2.2.2.2.2.2.1

theorem colsLoop_dataAccessPolicies (ct : List TableRec) (l : List SnowColumnRow)
    (db : DB) :
    (loadDataColumnsLoop ct db l).1.dataAccessPolicies =
      db.dataAccessPolicies :=
  (loadDataColumnsLoop_frame ct l db).2.2.2.2.2.2.2.1

theorem colsLoop_columns_mem (ct : List TableRec) (l : List SnowColumnRow)
    (db : DB) (r : ColumnRec)
    (h : r ∈ (loadDataColumnsLoop ct db l).1.columns) :
    r ∈ db.columns ∨ db.nextId ≤ r.id :=
  (loadDataColumnsLoop_frame ct l db).2.2.2.2.2.2.2.2.2 r h

end Storage

/-- C10: a successful load-data invocation first deletes everything —
after it returns success, no record that existed before the call
survives in any of the nine cleared collections: the stale
database/schema/table/column rows are gone (the post-state holds only
freshly created rows, whose ids come from the supply after the old
ones), and the column-lineage, table-lineage, project, data-quality-rule
and data-access-policy tables are empty. -/
theorem loadData_clears_previous (env : Env) (cfg : Storage.SnowflakeConfig)
    (fetch : Except String
      (List Storage.SnowTableRow × List Storage.SnowTableRow ×
        List Storage.SnowColumnRow))
    (db : Storage.DB) (hwf : Storage.wfDB db)
    (hs : (Storage.loadData env cfg fetch db).2.success = true) :
    (∀ r ∈ db.databases, r ∉ (Storage.loadData env cfg fetch db).1.databases) ∧
    (∀ r ∈ db.schemas, r ∉ (Storage.loadData env cfg fetch db).1.schemas) ∧
    (∀ r ∈ db.tables, r ∉ (Storage.loadData env cfg fetch db).1.tables) ∧
    (∀ r ∈ db.columns, r ∉ (Storage.loadData env cfg fetch db).1.columns) ∧
    (Storage.loadData env cfg fetch db).1.columnLineage = [] ∧
    (Storage.loadData env cfg fetch db).1.tableLineage = [] ∧
    (Storage.loadData env cfg fetch db).1.projects = [] ∧
    (Storage.loadData env cfg fetch db).1.dataQualityRules = [] ∧
    (Storage.loadData env cfg fetch db).1.dataAccessPolicies = [] := by
  obtain ⟨w1, w2, w3, w4, w5, w6, w7, w8, w9⟩ := hwf
  cases fetch with
  | error msg => simp [Storage.loadData] at hs
  | ok fetched =>
    simp only [Storage.loadData, Storage.clearAllData, Storage.createDatabase,
      Storage.createSchema] at hs ⊢
    refine ⟨?_, ?_, ?_, ?_, ?_, ?_, ?_, ?_, ?_⟩
    · intro r hr hcon
      rw [Storage.colsLoop_databases, Storage.tablesLoop_databases] at hcon
      simp only [List.nil_append, List.mem_singleton] at hcon
      have hid := w1 r hr
      rw [hcon] at hid
      simp at hid
    · intro r hr hcon
      rw [Storage.colsLoop_schemas, Storage.tablesLoop_schemas] at hcon
      simp only [List.nil_append, List.mem_singleton] at hcon
      have hid := w2 r hr
      rw [hcon] at hid
      simp at hid
    · intro r hr hcon
      rw [Storage.colsLoop_tables] at hcon
      rcases Storage.tablesLoop_tables_mem _ _ _ _ _ r hcon with hin | hge
      · simp at hin
      · have hid := w3 r hr
        simp at hge
        omega
    · intro r hr hcon
      rcases Storage.colsLoop_columns_mem _ _ _ r hcon with hin | hge
      · rw [Storage.tablesLoop_columns] at hin
        simp at hin
      · have hid := w4 r hr
        have hmon := le_trans (Storage.tablesLoop_nextId_le env _ _ _ 0) hge
        simp only [] at hmon
        omega
    · rw [Storage.colsLoop_columnLineage, Storage.tablesLoop_columnLineage]
    · rw [Storage.colsLoop_tableLineage, Storage.tablesLoop_tableLineage]
    · rw [Storage.colsLoop_projects, Storage.tablesLoop_projects]
    · rw [Storage.colsLoop_dataQualityRules, Storage.tablesLoop_dataQualityRules]
    · rw [Storage.colsLoop_dataAccessPolicies,
        Storage.tablesLoop_dataAccessPolicies]

/-- C10 (witness): on a store holding a stale row in each of the nine
collections, a successful load of one table with one column removes
every stale row. -/
theorem loadData_clears_previous_witness :
    (∀ r ∈ Storage.staleDB.databases,
      r ∉ (Storage.loadData env0 Storage.loadCfg Storage.loadFetch
            Storage.staleDB).1.databases) ∧
    (∀ r ∈ Storage.staleDB.schemas,
      r ∉ (Storage.loadData env0 Storage.loadCfg Storage.loadFetch
            Storage.staleDB).1.schemas) ∧
    (∀ r ∈ Storage.staleDB.tables,
      r ∉ (Storage.loadData env0 Storage.loadCfg Storage.loadFetch
            Storage.staleDB).1.tables) ∧
    (∀ r ∈ Storage.staleDB.columns,
      r ∉ (Storage.loadData env0 Storage.loadCfg Storage.loadFetch
            Storage.staleDB).1.columns) ∧
    (Storage.loadData env0 Storage.loadCfg Storage.loadFetch
      Storage.staleDB).1.columnLineage = [] ∧
    (Storage.loadData env0 Storage.loadCfg Storage.loadFetch
      Storage.staleDB).1.tableLineage = [] ∧
    (Storage.loadData env0 Storage.loadCfg Storage.loadFetch
      Storage.staleDB).1.projects = [] ∧
    (Storage.loadData env0 Storage.loadCfg Storage.loadFetch
      Storage.staleDB).1.dataQualityRules = [] ∧
    (Storage.loadData env0 Storage.loadCfg Storage.loadFetch
      Storage.staleDB).1.dataAccessPolicies = [] :=
  loadData_clears_previous env0 Storage.loadCfg Storage.loadFetch
    Storage.staleDB (by unfold Storage.wfDB; decide) (by decide)

end LineageVisualizer
